import Mathlib

/-!
Verification of the process-execution-and-streaming pipeline of
`src/geminimcp/server.py` (GuDaStudio/geminimcp).

The Python source is shallowly embedded as executable Lean definitions:

* `read_output` models the background reader thread (`read_output`, server.py
  lines 104-121): it walks the list of lines produced by the subprocess,
  attempts a bounded `queue.put` for each (an oracle `full : Nat → Bool` says
  whether the put at index `i` timed out with `queue.Full`), checks the
  turn-completion sentinel after a *successful* put, and finally executes the
  unbounded `output_queue.put(None)` unless an exception escaped the read loop.
* `timeoutCheck` models the timeout branch of `run_shell_command`
  (lines 127-139).
* `consume` / `processLine` model the consumer loop of the `gemini` tool
  (lines 256-280); `finalize` models the verdict and result construction
  (lines 289-315); `gemini` models the whole tool body (lines 222-315).

A subprocess output line is represented by `Line`, carrying the result of
`json.loads` on the (stripped) text: `malformed` when decoding raises
`JSONDecodeError`, otherwise the decoded Python value (`PyVal`): a JSON object
(`Event`, with the four recognized keys) or a non-object value (`nonObj`,
which makes `line_dict.get(...)` raise `AttributeError`).  JSON field values
are modelled by `JVal` (strings, null, and integers; other JSON value shapes
are not needed by any claim).  Python string primitives used by the source
(`s[:n]`, `s.strip()`, `needle in hay`) are embedded as `pyTake`, `pyStrip`
and `pyContains` on `String.data`.
-/

namespace GeminiMCP

/-- Python `str.isspace` charset relevant to `str.strip()` (ASCII whitespace). -/
def pyIsSpace (c : Char) : Bool :=
  c == ' ' || c == '\t' || c == '\n' || c == '\r' || c == '\x0b' || c == '\x0c'

/-- Python `s[:n]` on a text string. -/
def pyTake (n : Nat) (s : String) : String :=
  String.mk (s.data.take n)

/-- Python `str.strip()` on a character list: drop whitespace from both ends. -/
def pyStripList (l : List Char) : List Char :=
  ((l.dropWhile pyIsSpace).reverse.dropWhile pyIsSpace).reverse

/-- Python `str.strip()`. -/
def pyStrip (s : String) : String :=
  String.mk (pyStripList s.data)

/-- Does the first list start with the second-to-none... (helper for substring search):
`startsWithL n h` is true when `n` is an initial segment of `h`. -/
def startsWithL : List Char → List Char → Bool
  | [], _ => true
  | _ :: _, [] => false
  | a :: as, b :: bs => a == b && startsWithL as bs

/-- `containsL n h`: `n` occurs as a contiguous sublist of `h`. -/
def containsL (n : List Char) : List Char → Bool
  | [] => startsWithL n []
  | b :: bs => startsWithL n (b :: bs) || containsL n bs

/-- Python `needle in hay` for strings (substring containment). -/
def pyContains (needle hay : String) : Bool :=
  containsL needle.data hay.data

/-- `phrase` occurs somewhere inside `s` ("the error text mentions `phrase`"). -/
def mentions (phrase s : String) : Prop :=
  phrase.data <:+: s.data

/-- Concatenation of a list of strings, in order. -/
def concatStrings : List String → String
  | [] => ""
  | s :: rest => s ++ concatStrings rest

/-- A JSON field value as `json.loads` produces it: a string, `null` (Python
`None`), or a number (modelled as a Python int). -/
inductive JVal
  | s (v : String)
  | null
  | num (n : Int)
deriving DecidableEq

/-- A decoded JSON object restricted to the four keys the source reads
(`type`, `role`, `content`, `session_id`); `none` means the key is absent. -/
structure Event where
  type : Option JVal := none
  role : Option JVal := none
  content : Option JVal := none
  session_id : Option JVal := none
deriving DecidableEq

/-- The value `json.loads` returned for one line: an object or a non-object
value (list, number, string, ...) whose Python type name is `kind`. -/
inductive PyVal
  | obj (e : Event)
  | nonObj (kind : String)
deriving DecidableEq

/-- One stripped line of subprocess output together with its decode result.
`raw` is the line text (used for error snippets). -/
inductive Line
  | malformed (raw : String)
  | decoded (v : PyVal) (raw : String)
deriving DecidableEq

/-- server.py line 92: `queue.Queue(maxsize=10000)`. -/
def QUEUE_MAXSIZE : Nat := 10000

/-- server.py line 93: `GRACEFUL_SHUTDOWN_DELAY = 0.3` (in milliseconds). -/
def GRACEFUL_SHUTDOWN_DELAY_MS : Nat := 300

/-- server.py line 111: `output_queue.put(stripped, timeout=1)` (milliseconds). -/
def PUT_TIMEOUT_MS : Nat := 1000

/-- server.py line 142: `output_queue.get(timeout=0.5)` (milliseconds). -/
def GET_TIMEOUT_MS : Nat := 500

/-- server.py line 20: `DEFAULT_TIMEOUT = 300`. -/
def DEFAULT_TIMEOUT : Nat := 300

/-- server.py lines 96-102, `is_turn_completed`: parse the line as JSON and
test `data.get("type") == "turn.completed"`; any decode/attribute/type error
yields `False`. -/
def is_turn_completed : Line → Bool
  | .decoded (.obj e) _ => e.type = some (JVal.s "turn.completed")
  | _ => false

/-- Outcome of the relay's `for` loop (server.py lines 108-118): the lines
successfully enqueued, the number of lines read, and whether the loop exited
via the sentinel `break`. -/
structure LoopOut where
  queued : List Line
  count : Nat
  broke : Bool
deriving DecidableEq

/-- The relay read loop, server.py lines 108-118.  `full i` tells whether the
`put` of the `i`-th line read raises `queue.Full`; on `queue.Full` the code
executes `continue`, skipping the sentinel check for that line. -/
def relayGo (full : Nat → Bool) : List Line → LoopOut
  | [] => ⟨[], 0, false⟩
  | l :: rest =>
    if full 0 then
      let r := relayGo (fun j => full (j + 1)) rest
      ⟨r.queued, r.count + 1, r.broke⟩
    else if is_turn_completed l then
      ⟨[l], 1, true⟩
    else
      let r := relayGo (fun j => full (j + 1)) rest
      ⟨l :: r.queued, r.count + 1, r.broke⟩

/-- A channel operation: a `queue.put` / `queue.get` with its timeout in
milliseconds (`none` = a fully blocking call with no timeout).  The item
`none` in a put is the end-of-stream marker (Python `None`). -/
inductive ChanOp
  | put (item : Option Line) (timeoutMs : Option Nat)
  | get (timeoutMs : Option Nat)
deriving DecidableEq

/-- An operation is bounded when it carries a timeout. -/
def ChanOp.bounded : ChanOp → Bool
  | .put _ t => t.isSome
  | .get t => t.isSome

/-- Is this op the enqueue of the end-of-stream marker? -/
def ChanOp.isMarkerPut : ChanOp → Bool
  | .put none _ => true
  | _ => false

/-- The channel get performed each poll iteration of the consumer loop,
server.py line 142: `output_queue.get(timeout=0.5)`. -/
def consumerGet : ChanOp :=
  ChanOp.get (some GET_TIMEOUT_MS)

/-- Observable outcome of the whole `read_output` thread body
(server.py lines 104-121). -/
structure RelayResult where
  queued : List Line
  readCount : Nat
  sleptMs : Option Nat
  terminated : Bool
  markerPut : Bool
  ops : List ChanOp
deriving DecidableEq

/-- server.py lines 104-121, `read_output`: run the read loop over the lines
the stream yields; `readErr = true` means `readline` raises after those lines
(instead of returning `""`).  On a sentinel `break` the thread sleeps
`GRACEFUL_SHUTDOWN_DELAY` and calls `process.terminate()`.  The final
`output_queue.put(None)` (line 121) sits *after* the `try/finally`, so it is
skipped when an exception escapes the loop; it is a blocking put with no
timeout. -/
def read_output (input : List Line) (readErr : Bool) (full : Nat → Bool) : RelayResult :=
  let r := relayGo full input
  let errRaised := readErr && !r.broke
  { queued := r.queued
    readCount := r.count
    sleptMs := if r.broke then some GRACEFUL_SHUTDOWN_DELAY_MS else none
    terminated := r.broke
    markerPut := !errRaised
    ops := (input.take r.count).map (fun l => ChanOp.put (some l) (some PUT_TIMEOUT_MS)) ++
      (if errRaised then [] else [ChanOp.put none none]) }

/-- The message of the `GeminiTimeoutError` raised at server.py lines 136-139. -/
def timeoutMsg (timeout : Nat) : String :=
  "Gemini CLI execution timed out after " ++ toString timeout ++
    " seconds. This may indicate the CLI is waiting for authentication or is stuck."

/-- What the timeout branch of the consumer loop does (server.py lines 129-139). -/
structure GovernorAction where
  killed : Bool
  raisedError : Option String
deriving DecidableEq

/-- server.py lines 129-139: at the top of each poll iteration, if elapsed
wall-clock time exceeds `timeout`, kill the process and raise
`GeminiTimeoutError` carrying `timeoutMsg`. -/
def timeoutCheck (elapsed : ℚ) (timeout : Nat) : GovernorAction :=
  if (timeout : ℚ) < elapsed then
    { killed := true, raisedError := some (timeoutMsg timeout) }
  else
    { killed := false, raisedError := none }

/-- server.py line 266: the deprecation-notice text tested with Python `in`. -/
def DEPRECATION_NOTICE : String :=
  "The --prompt (-p) flag has been deprecated"

/-- The consumer's accumulator (server.py lines 249-253): `all_messages`,
`agent_messages`, `err_message`, `thread_id`, and whether the loop has been
exited by `break` (`halted`). -/
structure AggState where
  all_messages : List PyVal := []
  agent_messages : String := ""
  err_message : String := ""
  thread_id : Option JVal := none
  halted : Bool := false
deriving DecidableEq

/-- server.py lines 249-253: the initial accumulator. -/
def initState : AggState := {}

/-- server.py line 263: `item_type == "message" and item_role == "assistant"`,
with `item_type = line_dict.get("type", "")` and likewise for the role. -/
def isAssistantMsg (e : Event) : Bool :=
  e.type.getD (JVal.s "") = JVal.s "message" && e.role.getD (JVal.s "") = JVal.s "assistant"

/-- server.py lines 270-271: the value assigned to `thread_id` when
`line_dict.get("session_id") is not None` (present and not JSON null). -/
def nonNullSession (e : Event) : Option JVal :=
  match e.session_id with
  | some v => if v = JVal.null then none else some v
  | none => none

/-- server.py lines 270-271 applied to the accumulator. -/
def applySession (st : AggState) (e : Event) : AggState :=
  match nonNullSession e with
  | some v => { st with thread_id := some v }
  | none => st

/-- server.py line 279: the text appended on a non-decode exception,
`f"\n[unexpected error] \x7berror\x7d"`. -/
def unexpectedEntry (msg : String) : String :=
  "\n[unexpected error] " ++ msg

/-- CPython message of the `AttributeError` raised by `line_dict.get(...)`
when `json.loads` returned a non-dict of type `kind`. -/
def attrErrMsg (kind : String) : String :=
  "\x27" ++ kind ++ "\x27 object has no attribute \x27get\x27"

/-- CPython message of the `TypeError` raised by `"..." in content` when the
`content` field is not a string. -/
def iterErrMsg : JVal → String
  | JVal.null => "argument of type \x27NoneType\x27 is not iterable"
  | JVal.num _ => "argument of type \x27int\x27 is not iterable"
  | JVal.s _ => ""

/-- One iteration of the consumer loop body, server.py lines 257-280.
On `json.JSONDecodeError`: append a 200-char snippet to `err_message` when it
is still under 2000 chars, then `continue`.  Otherwise the decoded value is
appended to `all_messages`; a non-dict value makes `.get` raise
`AttributeError`; an assistant message whose content contains the deprecation
notice is skipped by `continue` (also skipping the session-id update); a
non-string content raises `TypeError`; any such exception appends an
`[unexpected error]` entry (no cap) and sets `halted` (the `break`). -/
def processLine (st : AggState) (l : Line) : AggState :=
  match l with
  | .malformed raw =>
    if st.err_message.length < 2000 then
      { st with err_message := st.err_message ++ "\n[json decode error] " ++ pyTake 200 raw }
    else st
  | .decoded v _raw =>
    let st1 := { st with all_messages := st.all_messages ++ [v] }
    match v with
    | .nonObj kind =>
      { st1 with err_message := st1.err_message ++ unexpectedEntry (attrErrMsg kind)
                 halted := true }
    | .obj e =>
      if isAssistantMsg e then
        match e.content.getD (JVal.s "") with
        | JVal.s c =>
          if pyContains DEPRECATION_NOTICE c then st1
          else applySession { st1 with agent_messages := st1.agent_messages ++ c } e
        | bad =>
          { st1 with err_message := st1.err_message ++ unexpectedEntry (iterErrMsg bad)
                     halted := true }
      else applySession st1 e

/-- The consumer loop, server.py lines 256-280: fold `processLine` over the
consumed lines, stopping once `break` has run. -/
def consume : AggState → List Line → AggState
  | st, [] => st
  | st, l :: rest => if st.halted then st else consume (processLine st l) rest

/-- Does processing this line raise a non-decode exception (server.py
lines 260-268): the decoded value is not a dict, or it is an assistant
message whose `content` value is not a string? -/
def raisesProc : Line → Bool
  | .malformed _ => false
  | .decoded (.nonObj _) _ => true
  | .decoded (.obj e) _ =>
    isAssistantMsg e &&
      (match e.content.getD (JVal.s "") with
       | JVal.s _ => false
       | _ => true)

/-- The decoded value a line contributes to `all_messages`, if any. -/
def decodedVal : Line → Option PyVal
  | .malformed _ => none
  | .decoded v _ => some v

/-- The content a line contributes to `agent_messages`: the `content` string
of an assistant message that does not contain the deprecation notice. -/
def assistantContent : Line → Option String
  | .decoded (.obj e) _ =>
    if isAssistantMsg e then
      match e.content.getD (JVal.s "") with
      | JVal.s c => if pyContains DEPRECATION_NOTICE c then none else some c
      | _ => none
    else none
  | _ => none

/-- The session value a line writes into `thread_id`, if its processing
reaches the session update (server.py lines 270-271): `none` for malformed
lines, raising lines, and assistant deprecation-notice messages (whose
`continue` skips the update). -/
def sessionUpdateVal : Line → Option JVal
  | .malformed _ => none
  | .decoded (.nonObj _) _ => none
  | .decoded (.obj e) _ =>
    if isAssistantMsg e then
      match e.content.getD (JVal.s "") with
      | JVal.s c => if pyContains DEPRECATION_NOTICE c then none else nonNullSession e
      | _ => none
    else nonNullSession e

/-- server.py line 292. -/
def MISSING_SESSION_MSG : String :=
  "Failed to get `SESSION_ID` from the gemini session.\n"

/-- server.py lines 296-299 (the adjacent literals concatenated). -/
def EMPTY_RESPONSE_MSG : String :=
  "Failed to retrieve `agent_messages` from the Gemini session. " ++
    "This might be due to Gemini performing a tool call. " ++
    "You can continue using the `SESSION_ID` to proceed.\n"

/-- The phrase of `MISSING_SESSION_MSG` a caller reads as "failed to obtain a
session identifier". -/
def SESSION_FAIL_PHRASE : String :=
  "Failed to get `SESSION_ID` from the gemini session."

/-- The phrase of `EMPTY_RESPONSE_MSG` mentioning a possible tool action. -/
def TOOL_CALL_PHRASE : String :=
  "This might be due to Gemini performing a tool call."

/-- The phrase of `EMPTY_RESPONSE_MSG` noting the session id remains usable. -/
def REUSE_PHRASE : String :=
  "You can continue using the `SESSION_ID` to proceed."

/-- The dict returned by the `gemini` tool.  A field holding `none` models an
absent key; `all_messages = some none` models the key present with Python
`None` as value. -/
structure ResultDict where
  success : Bool
  SESSION_ID : Option JVal := none
  agent_messages : Option String := none
  error : Option String := none
  all_messages : Option (Option (List PyVal)) := none
deriving DecidableEq

/-- server.py lines 289-310: the verdict and the base result dict (before the
`return_all_messages` key is added). -/
def finalizeBase (st : AggState) : ResultDict :=
  if st.thread_id.isNone then
    { success := false
      error := some (pyStrip (MISSING_SESSION_MSG ++ st.err_message)) }
  else if st.agent_messages.length = 0 then
    { success := false
      error := some (pyStrip (EMPTY_RESPONSE_MSG ++ st.err_message)) }
  else
    { success := true
      SESSION_ID := st.thread_id
      agent_messages := some st.agent_messages }

/-- server.py lines 289-315: verdict, result construction, and the
`all_messages` key added when `return_all_messages` is set. -/
def finalize (return_all_messages : Bool) (st : AggState) : ResultDict :=
  let base := finalizeBase st
  if return_all_messages then { base with all_messages := some (some st.all_messages) }
  else base

/-- How the streamed invocation ended for the consumer: a `GeminiTimeoutError`
raised after some prefix of lines was consumed, or the full stream consumed. -/
inductive StreamOutcome
  | timeoutAfter (consumed : List Line)
  | completed (lines : List Line)
deriving DecidableEq

/-- server.py lines 222-315, the body of the `gemini` tool: workspace check,
auth pre-flight, the consumer loop over the streamed lines (with the timeout
handler of lines 282-287), then verdict and result construction. -/
def gemini (cdExists : Bool) (authOk : Bool) (authMsg : String) (cdPath : String)
    (outcome : StreamOutcome) (return_all_messages : Bool) (timeout : Nat) : ResultDict :=
  if !cdExists then
    { success := false
      error := some ("The workspace root directory `" ++ cdPath ++ "` does not exist.") }
  else if !authOk then
    { success := false
      error := some ("Gemini CLI authentication check failed: " ++ authMsg ++
        ". Please run \x27gemini auth login\x27 manually in your terminal.") }
  else
    match outcome with
    | .timeoutAfter consumed =>
      let st := consume initState consumed
      { success := false
        error := some (timeoutMsg timeout)
        all_messages := some (if return_all_messages then some st.all_messages else none) }
    | .completed ls =>
      finalize return_all_messages (consume initState ls)

/-- A stream line whose JSON object has `type = "turn.completed"`. -/
def sentinelLine : Line :=
  .decoded (.obj { type := some (JVal.s "turn.completed") })
    "\x7b\"type\": \"turn.completed\"\x7d"

/-- An assistant message whose content strictly contains the deprecation
notice (it is not equal to it). -/
def depSupersetLine : Line :=
  .decoded (.obj { type := some (JVal.s "message"), role := some (JVal.s "assistant")
                   content := some (JVal.s
                     "Note: The --prompt (-p) flag has been deprecated and will be removed.") })
    "raw-c4"

/-- A plain (non-assistant) event carrying session id `s1`. -/
def sessionLineA : Line :=
  .decoded (.obj { session_id := some (JVal.s "s1") }) "raw-c5a"

/-- An assistant deprecation-notice message that also carries session id `s2`. -/
def depSessionLine : Line :=
  .decoded (.obj { type := some (JVal.s "message"), role := some (JVal.s "assistant")
                   content := some (JVal.s "The --prompt (-p) flag has been deprecated")
                   session_id := some (JVal.s "s2") })
    "raw-c5b"

/-- An ordinary assistant reply carrying a session id. -/
def assistantHello : Line :=
  .decoded (.obj { type := some (JVal.s "message"), role := some (JVal.s "assistant")
                   content := some (JVal.s "Hello."), session_id := some (JVal.s "abc") })
    "raw-c6"

/-- A 200-character malformed line. -/
def badLine200 : Line :=
  Line.malformed (String.mk (List.replicate 200 'x'))

/-- Eleven malformed 200-character lines in a row. -/
def elevenBadLines : List Line :=
  List.replicate 11 badLine200

/-- A line that decodes to a JSON array: `line_dict.get` raises
`AttributeError` on it. -/
def nonObjLine : Line :=
  .decoded (.nonObj "list") "[1, 2]"

/-- Two events carrying session ids `a` then `b`. -/
def twoSessionLines : List Line :=
  [.decoded (.obj { session_id := some (JVal.s "a") }) "raw-w5a",
   .decoded (.obj { session_id := some (JVal.s "b") }) "raw-w5b"]

/-- The raw `session_id` field of a decoded object line (for stating what a
line "bears"). -/
def eventSessionField : Line → Option JVal
  | .decoded (.obj e) _ => e.session_id
  | _ => none

/-!  Helper lemmas. -/

/-- The consumer loop is a no-op once `break` has run. -/
theorem consume_of_halted (lines : List Line) (st : AggState) (h : st.halted = true) :
    consume st lines = st := by
  cases lines with
  | nil => rfl
  | cons l rest => simp [consume, h]

/-- `countP` of the marker predicate over the per-line put ops is zero. -/
theorem countP_linePuts (ls : List Line) :
    (ls.map (fun l => ChanOp.put (some l) (some PUT_TIMEOUT_MS))).countP ChanOp.isMarkerPut
      = 0 := by
  induction ls with
  | nil => rfl
  | cons a as ih => simp [List.countP_cons, ChanOp.isMarkerPut, ih]

/-- If the `k`-th line read is a sentinel, its put succeeded, and no earlier
line was a successfully-enqueued sentinel, then the read loop breaks right
after line `k`. -/
theorem relayGo_sentinel (input : List Line) (full : Nat → Bool) (k : Nat)
    (hk : k < input.length)
    (hfirst : ∀ j, j < k →
      full j = true ∨ is_turn_completed (input.getD j (Line.malformed "")) = false)
    (hfull : full k = false)
    (hsent : is_turn_completed (input.getD k (Line.malformed "")) = true) :
    (relayGo full input).broke = true ∧ (relayGo full input).count = k + 1 := by
  induction input generalizing full k with
  | nil => simp at hk
  | cons l rest ih =>
    cases k with
    | zero =>
      simp only [List.getD_cons_zero] at hsent
      simp [relayGo, hfull, hsent]
    | succ j =>
      have hk' : j < rest.length := by simpa using hk
      have hfirst' : ∀ i, i < j →
          (fun m => full (m + 1)) i = true ∨
            is_turn_completed (rest.getD i (Line.malformed "")) = false := by
        intro i hi
        have := hfirst (i + 1) (by omega)
        simpa [List.getD_cons_succ] using this
      have hfull' : (fun m => full (m + 1)) j = false := hfull
      have hsent' : is_turn_completed (rest.getD j (Line.malformed "")) = true := by
        simpa [List.getD_cons_succ] using hsent
      have hrec := ih (fun m => full (m + 1)) j hk' hfirst' hfull' hsent'
      cases hf0 : full 0 with
      | true => simp [relayGo, hf0, hrec.1, hrec.2]
      | false =>
        have hsl : is_turn_completed l = false := by
          rcases hfirst 0 (Nat.succ_pos j) with h | h
          · rw [hf0] at h; exact absurd h (by simp)
          · exact h
        simp [relayGo, hf0, hsl, hrec.1, hrec.2]

/-!  Claim C1. -/

/-- Claim C1, as stated, is false: a `turn.completed` line whose enqueue hits
a full channel is discarded by the `continue` at server.py line 114 *before*
the sentinel check, so the relay neither sleeps nor terminates for it and
keeps reading. -/
theorem c1_counterexample :
    is_turn_completed sentinelLine = true ∧
    (read_output [sentinelLine] false (fun _ => true)).terminated = false ∧
    (read_output [sentinelLine] false (fun _ => true)).sleptMs = none ∧
    (read_output [sentinelLine] false (fun _ => true)).readCount = 1 := by
  decide

/-- Claim C1 (amended): for every line whose JSON decodes with type
`turn.completed` *and whose enqueue onto the channel succeeded* (and no
earlier line was a successfully-enqueued sentinel), the relay sleeps the
grace interval, calls `terminate()`, reads no further lines, and still
enqueues the end-of-stream marker. -/
theorem c1_sentinel_terminates (input : List Line) (readErr : Bool) (full : Nat → Bool)
    (k : Nat) (hk : k < input.length)
    (hfirst : ∀ j, j < k →
      full j = true ∨ is_turn_completed (input.getD j (Line.malformed "")) = false)
    (hfull : full k = false)
    (hsent : is_turn_completed (input.getD k (Line.malformed "")) = true) :
    (read_output input readErr full).terminated = true ∧
    (read_output input readErr full).sleptMs = some GRACEFUL_SHUTDOWN_DELAY_MS ∧
    (read_output input readErr full).readCount = k + 1 ∧
    (read_output input readErr full).markerPut = true := by
  obtain ⟨hb, hc⟩ := relayGo_sentinel input full k hk hfirst hfull hsent
  simp [read_output, hb, hc]

/-- Witness for C1 (amended) at a concrete stream: noise, then a sentinel
with a successful enqueue. -/
theorem c1_sentinel_terminates_witness :
    (read_output [Line.malformed "noise", sentinelLine] false (fun _ => false)).terminated
        = true ∧
    (read_output [Line.malformed "noise", sentinelLine] false (fun _ => false)).sleptMs
        = some GRACEFUL_SHUTDOWN_DELAY_MS ∧
    (read_output [Line.malformed "noise", sentinelLine] false (fun _ => false)).readCount
        = 2 ∧
    (read_output [Line.malformed "noise", sentinelLine] false (fun _ => false)).markerPut
        = true :=
  c1_sentinel_terminates [Line.malformed "noise", sentinelLine] false (fun _ => false) 1
    (by decide)
    (fun j hj => by
      have hj0 : j = 0 := by omega
      subst hj0
      exact Or.inr (by decide))
    rfl (by decide)

/-!  Claim C2. -/

/-- Claim C2, as stated, is false: `output_queue.put(None)` (server.py
line 121) sits after the `try/finally`, not inside it, so when reading raises
an error the marker is never enqueued. -/
theorem c2_counterexample :
    (read_output [Line.malformed "truncated output"] true (fun _ => false)).markerPut
        = false ∧
    (read_output [Line.malformed "truncated output"] true (fun _ => false)).ops.countP
        ChanOp.isMarkerPut = 0 := by
  decide

/-- Claim C2 (amended): when the read loop ends because the stream closed or
because the sentinel was detected, exactly one end-of-stream marker is
enqueued, as the last channel operation; when an error is raised during
reading, the marker enqueue is skipped. -/
theorem c2_marker_exactly_once (input : List Line) (readErr : Bool) (full : Nat → Bool)
    (h : readErr = false ∨ (read_output input readErr full).terminated = true) :
    (read_output input readErr full).ops.countP ChanOp.isMarkerPut = 1 ∧
    (read_output input readErr full).ops.getLast? = some (ChanOp.put none none) ∧
    (read_output input readErr full).markerPut = true := by
  have hb : (readErr && !(relayGo full input).broke) = false := by
    rcases h with h | h
    · simp [h]
    · have hbr : (relayGo full input).broke = true := by simpa [read_output] using h
      simp [hbr]
  refine ⟨?_, ?_, ?_⟩
  · simp [read_output, hb, List.countP_append, countP_linePuts, List.countP_cons,
      ChanOp.isMarkerPut]
    intro a ha
    obtain ⟨l, _, rfl⟩ := List.mem_map.mp (List.mem_of_mem_take ha)
    rfl
  · simp [read_output, hb, List.getLast?_concat]
  · simp [read_output, hb]

/-- Witness for C2 (amended): an error-free stream of one plain line. -/
theorem c2_marker_exactly_once_witness :
    (read_output [Line.malformed "noise"] false (fun _ => false)).ops.countP
        ChanOp.isMarkerPut = 1 ∧
    (read_output [Line.malformed "noise"] false (fun _ => false)).ops.getLast?
        = some (ChanOp.put none none) ∧
    (read_output [Line.malformed "noise"] false (fun _ => false)).markerPut = true :=
  c2_marker_exactly_once [Line.malformed "noise"] false (fun _ => false) (Or.inl rfl)

/-!  Claim C8. -/

/-- Claim C8, as stated, is false: the end-of-stream marker enqueue
(server.py line 121) is a blocking `put` with no timeout, and the relay does
perform it. -/
theorem c8_counterexample :
    ChanOp.put none none ∈ (read_output [] false (fun _ => false)).ops ∧
    (ChanOp.put none none).bounded = false := by
  decide

/-- Claim C8 (amended): every per-line enqueue the relay performs is bounded
by the 1-second put timeout and the consumer's dequeue is bounded by the
0.5-second poll timeout, but the relay's end-of-stream marker enqueue is an
unbounded blocking put. -/
theorem c8_bounded_ops (input : List Line) (readErr : Bool) (full : Nat → Bool)
    (op : ChanOp) (hop : op ∈ (read_output input readErr full).ops) :
    ((∃ l, op = ChanOp.put (some l) (some PUT_TIMEOUT_MS)) ∨ op = ChanOp.put none none) ∧
    (∀ l, (ChanOp.put (some l) (some PUT_TIMEOUT_MS)).bounded = true) ∧
    consumerGet.bounded = true := by
  refine ⟨?_, fun l => rfl, rfl⟩
  simp only [read_output] at hop
  rcases List.mem_append.mp hop with h | h
  · obtain ⟨l, _, rfl⟩ := List.mem_map.mp h
    exact Or.inl ⟨l, rfl⟩
  · split at h
    · simp at h
    · simp only [List.mem_singleton] at h
      exact Or.inr h

/-- Witness for C8 (amended) at the marker put of an empty stream. -/
theorem c8_bounded_ops_witness :
    ((∃ l, ChanOp.put none none = ChanOp.put (some l) (some PUT_TIMEOUT_MS)) ∨
      ChanOp.put none none = ChanOp.put none none) ∧
    (∀ l, (ChanOp.put (some l) (some PUT_TIMEOUT_MS)).bounded = true) ∧
    consumerGet.bounded = true :=
  c8_bounded_ops [] false (fun _ => false) (ChanOp.put none none) (by decide)

/-!  Consumer-side helper lemmas. -/

theorem string_length_zero {s : String} (h : s.length = 0) : s = "" := by
  cases s with
  | mk d =>
    cases d with
    | nil => rfl
    | cons a as => simp [String.length] at h

theorem applySession_all (st : AggState) (e : Event) :
    (applySession st e).all_messages = st.all_messages := by
  unfold applySession
  cases h : nonNullSession e <;> simp

theorem applySession_agent (st : AggState) (e : Event) :
    (applySession st e).agent_messages = st.agent_messages := by
  unfold applySession
  cases h : nonNullSession e <;> simp

theorem applySession_err (st : AggState) (e : Event) :
    (applySession st e).err_message = st.err_message := by
  unfold applySession
  cases h : nonNullSession e <;> simp

theorem applySession_halted (st : AggState) (e : Event) :
    (applySession st e).halted = st.halted := by
  unfold applySession
  cases h : nonNullSession e <;> simp

theorem applySession_thread (st : AggState) (e : Event) :
    (applySession st e).thread_id =
      match nonNullSession e with
      | some v => some v
      | none => st.thread_id := by
  unfold applySession
  cases h : nonNullSession e <;> simp

theorem processLine_all (st : AggState) (l : Line) :
    (processLine st l).all_messages = st.all_messages ++ (decodedVal l).toList := by
  cases l with
  | malformed raw =>
    simp only [processLine, decodedVal]
    split <;> simp
  | decoded v raw =>
    cases v with
    | nonObj kind => simp [processLine, decodedVal]
    | obj e =>
      by_cases hA : isAssistantMsg e = true
      · cases hc : e.content.getD (JVal.s "") with
        | s c =>
          simp only [processLine, decodedVal, hA, if_true, hc]
          split
          · simp
          · rw [applySession_all]; simp
        | null => simp [processLine, decodedVal, hA, hc]
        | num n => simp [processLine, decodedVal, hA, hc]
      · simp [processLine, decodedVal, hA, applySession_all]

theorem processLine_halted (st : AggState) (l : Line) (h : raisesProc l = false) :
    (processLine st l).halted = st.halted := by
  cases l with
  | malformed raw =>
    simp only [processLine]
    split <;> rfl
  | decoded v raw =>
    cases v with
    | nonObj kind => simp [raisesProc] at h
    | obj e =>
      by_cases hA : isAssistantMsg e = true
      · cases hc : e.content.getD (JVal.s "") with
        | s c =>
          simp only [processLine, hA, if_true, hc]
          split
          · rfl
          · rw [applySession_halted]
        | null => simp [raisesProc, hA, hc] at h
        | num n => simp [raisesProc, hA, hc] at h
      · simp [processLine, hA, applySession_halted]

theorem processLine_agent (st : AggState) (l : Line) (h : raisesProc l = false) :
    (processLine st l).agent_messages =
      st.agent_messages ++ (assistantContent l).getD "" := by
  cases l with
  | malformed raw =>
    simp only [processLine, assistantContent]
    split <;> simp
  | decoded v raw =>
    cases v with
    | nonObj kind => simp [raisesProc] at h
    | obj e =>
      by_cases hA : isAssistantMsg e = true
      · cases hc : e.content.getD (JVal.s "") with
        | s c =>
          simp only [processLine, assistantContent, hA, if_true, hc]
          split
          · simp
          · rw [applySession_agent]; simp
        | null => simp [raisesProc, hA, hc] at h
        | num n => simp [raisesProc, hA, hc] at h
      · simp [processLine, assistantContent, hA, applySession_agent]

theorem processLine_err_malformed (st : AggState) (raw : String) :
    (processLine st (Line.malformed raw)).err_message =
      if st.err_message.length < 2000
      then st.err_message ++ "\n[json decode error] " ++ pyTake 200 raw
      else st.err_message := by
  simp only [processLine]
  split <;> simp [*]

theorem processLine_err_decoded (st : AggState) (v : PyVal) (raw : String)
    (h : raisesProc (Line.decoded v raw) = false) :
    (processLine st (Line.decoded v raw)).err_message = st.err_message := by
  cases v with
  | nonObj kind => simp [raisesProc] at h
  | obj e =>
    by_cases hA : isAssistantMsg e = true
    · cases hc : e.content.getD (JVal.s "") with
      | s c =>
        simp only [processLine, hA, if_true, hc]
        split
        · rfl
        · rw [applySession_err]
      | null => simp [raisesProc, hA, hc] at h
      | num n => simp [raisesProc, hA, hc] at h
    · simp [processLine, hA, applySession_err]

theorem processLine_thread (st : AggState) (l : Line) (h : raisesProc l = false) :
    (processLine st l).thread_id =
      match sessionUpdateVal l with
      | some v => some v
      | none => st.thread_id := by
  cases l with
  | malformed raw =>
    simp only [processLine, sessionUpdateVal]
    split <;> rfl
  | decoded v raw =>
    cases v with
    | nonObj kind => simp [raisesProc] at h
    | obj e =>
      by_cases hA : isAssistantMsg e = true
      · cases hc : e.content.getD (JVal.s "") with
        | s c =>
          simp only [processLine, sessionUpdateVal, hA, if_true, hc]
          split
          · rfl
          · rw [applySession_thread]
        | null => simp [raisesProc, hA, hc] at h
        | num n => simp [raisesProc, hA, hc] at h
      · simp only [processLine, sessionUpdateVal]
        simp only [hA, Bool.false_eq_true, if_false]
        rw [applySession_thread]

theorem pyTake_length_le (n : Nat) (s : String) : (pyTake n s).length ≤ n := by
  have h1 : (pyTake n s).length = (s.data.take n).length := String.length_mk _
  rw [h1, List.length_take]
  exact min_le_left _ _

theorem consume_not_halted (lines : List Line) (st : AggState)
    (hst : st.halted = false) (h : ∀ l ∈ lines, raisesProc l = false) :
    (consume st lines).halted = false := by
  induction lines generalizing st with
  | nil => exact hst
  | cons l rest ih =>
    have hl := h l (List.mem_cons_self l rest)
    have hh : (processLine st l).halted = false := by
      rw [processLine_halted st l hl]; exact hst
    simp only [consume, hst, if_neg Bool.false_ne_true]
    exact ih (processLine st l) hh (fun x hx => h x (List.mem_cons_of_mem l hx))

theorem consume_agent (lines : List Line) (st : AggState)
    (hst : st.halted = false) (h : ∀ l ∈ lines, raisesProc l = false) :
    (consume st lines).agent_messages =
      st.agent_messages ++ concatStrings (lines.filterMap assistantContent) := by
  induction lines generalizing st with
  | nil => simp [consume, concatStrings]
  | cons l rest ih =>
    have hl := h l (List.mem_cons_self l rest)
    have hh : (processLine st l).halted = false := by
      rw [processLine_halted st l hl]; exact hst
    simp only [consume, hst, if_neg Bool.false_ne_true]
    rw [ih (processLine st l) hh (fun x hx => h x (List.mem_cons_of_mem l hx)),
      processLine_agent st l hl]
    cases hac : assistantContent l with
    | none => simp [List.filterMap_cons, hac]
    | some c => simp [List.filterMap_cons, hac, concatStrings, String.append_assoc]

theorem consume_all (lines : List Line) (st : AggState)
    (hst : st.halted = false) (h : ∀ l ∈ lines, raisesProc l = false) :
    (consume st lines).all_messages = st.all_messages ++ lines.filterMap decodedVal := by
  induction lines generalizing st with
  | nil => simp [consume]
  | cons l rest ih =>
    have hl := h l (List.mem_cons_self l rest)
    have hh : (processLine st l).halted = false := by
      rw [processLine_halted st l hl]; exact hst
    simp only [consume, hst, if_neg Bool.false_ne_true]
    rw [ih (processLine st l) hh (fun x hx => h x (List.mem_cons_of_mem l hx)),
      processLine_all st l]
    cases hdv : decodedVal l with
    | none => simp [List.filterMap_cons, hdv]
    | some v => simp [List.filterMap_cons, hdv]

theorem consume_thread (lines : List Line) (st : AggState)
    (hst : st.halted = false) (h : ∀ l ∈ lines, raisesProc l = false) :
    (consume st lines).thread_id =
      lines.foldl
        (fun acc l =>
          match sessionUpdateVal l with
          | some v => some v
          | none => acc)
        st.thread_id := by
  induction lines generalizing st with
  | nil => rfl
  | cons l rest ih =>
    have hl := h l (List.mem_cons_self l rest)
    have hh : (processLine st l).halted = false := by
      rw [processLine_halted st l hl]; exact hst
    simp only [consume, hst, if_neg Bool.false_ne_true, List.foldl_cons]
    rw [ih (processLine st l) hh (fun x hx => h x (List.mem_cons_of_mem l hx)),
      processLine_thread st l hl]

theorem consume_err_le (lines : List Line) (st : AggState)
    (hst : st.halted = false) (h : ∀ l ∈ lines, raisesProc l = false)
    (hlen : st.err_message.length ≤ 2220) :
    (consume st lines).err_message.length ≤ 2220 := by
  induction lines generalizing st with
  | nil => exact hlen
  | cons l rest ih =>
    have hl := h l (List.mem_cons_self l rest)
    have hh : (processLine st l).halted = false := by
      rw [processLine_halted st l hl]; exact hst
    simp only [consume, hst, if_neg Bool.false_ne_true]
    refine ih (processLine st l) hh (fun x hx => h x (List.mem_cons_of_mem l hx)) ?_
    cases l with
    | malformed raw =>
      rw [processLine_err_malformed]
      split
      · rename_i hlt
        have h200 : (pyTake 200 raw).length ≤ 200 := pyTake_length_le 200 raw
        rw [String.length_append, String.length_append]
        have h21 : ("\n[json decode error] " : String).length = 21 := rfl
        omega
      · exact hlen
    | decoded v raw =>
      rw [processLine_err_decoded st v raw hl]
      exact hlen

/-!  Lemmas about Python `strip` preserving interior phrases. -/

theorem infix_pyStripList (pre phrase suf : List Char)
    (hne : pre ++ phrase ≠ [])
    (hhead : pyIsSpace ((pre ++ phrase).headD 'x') = false)
    (hpne : phrase ≠ [])
    (hlast : pyIsSpace (phrase.reverse.headD 'x') = false) :
    phrase <:+: pyStripList ((pre ++ phrase) ++ suf) := by
  unfold pyStripList
  have h1 : ((pre ++ phrase) ++ suf).dropWhile pyIsSpace = (pre ++ phrase) ++ suf := by
    cases hL : pre ++ phrase with
    | nil => exact absurd hL hne
    | cons a as =>
      rw [hL] at hhead
      simp only [List.headD_cons] at hhead
      simp [hL, List.dropWhile_cons, hhead]
  rw [h1, List.reverse_append, List.reverse_append]
  obtain ⟨c, cs, hrev⟩ : ∃ c cs, phrase.reverse = c :: cs := by
    cases hr : phrase.reverse with
    | nil =>
      have : phrase = [] := by simpa using congrArg List.reverse hr
      exact absurd this hpne
    | cons c cs => exact ⟨c, cs, rfl⟩
  have hcws : pyIsSpace c = false := by
    rw [hrev] at hlast
    simpa using hlast
  have h2 : (phrase.reverse ++ pre.reverse).dropWhile pyIsSpace =
      phrase.reverse ++ pre.reverse := by
    rw [hrev]
    simp [List.dropWhile_cons, hcws]
  rw [List.dropWhile_append]
  split
  · rw [h2, List.reverse_append, List.reverse_reverse, List.reverse_reverse]
    exact (List.suffix_append pre phrase).isInfix
  · rw [List.reverse_append, List.reverse_append, List.reverse_reverse,
      List.reverse_reverse]
    exact ⟨pre, (List.dropWhile pyIsSpace suf.reverse).reverse, by
      simp [List.append_assoc]⟩

theorem mentions_pyStrip (phrase s : String) (pre suf : List Char)
    (hsplit : s.data = (pre ++ phrase.data) ++ suf)
    (hne : pre ++ phrase.data ≠ [])
    (hhead : pyIsSpace ((pre ++ phrase.data).headD 'x') = false)
    (hpne : phrase.data ≠ [])
    (hlast : pyIsSpace (phrase.data.reverse.headD 'x') = false) :
    mentions phrase (pyStrip s) := by
  unfold mentions pyStrip
  show phrase.data <:+: pyStripList s.data
  rw [hsplit]
  exact infix_pyStripList pre phrase.data suf hne hhead hpne hlast

/-!  Lemmas about `finalize`. -/

theorem finalizeBase_all (st : AggState) : (finalizeBase st).all_messages = none := by
  unfold finalizeBase
  split_ifs <;> rfl

theorem finalize_success (r : Bool) (st : AggState) :
    (finalize r st).success = (finalizeBase st).success := by
  unfold finalize
  cases r <;> rfl

theorem finalize_error (r : Bool) (st : AggState) :
    (finalize r st).error = (finalizeBase st).error := by
  unfold finalize
  cases r <;> rfl

theorem finalize_sid (r : Bool) (st : AggState) :
    (finalize r st).SESSION_ID = (finalizeBase st).SESSION_ID := by
  unfold finalize
  cases r <;> rfl

theorem finalize_agent (r : Bool) (st : AggState) :
    (finalize r st).agent_messages = (finalizeBase st).agent_messages := by
  unfold finalize
  cases r <;> rfl

theorem finalize_all (r : Bool) (st : AggState) :
    (finalize r st).all_messages =
      if r then some (some st.all_messages) else none := by
  unfold finalize
  cases r
  · simp [finalizeBase_all]
  · simp


/-!  Claim C3. -/

/-- Claim C3: when elapsed wall-clock time exceeds the configured timeout,
the governor kills the subprocess and raises `GeminiTimeoutError`; the
invocation result is a failure whose error text contains the configured
timeout value, with the events collected so far included when the caller
requested them. -/
theorem c3_timeout_failure (elapsed : ℚ) (timeout : Nat) (consumed : List Line)
    (return_all : Bool) (authMsg cdPath : String)
    (h : (timeout : ℚ) < elapsed) :
    (timeoutCheck elapsed timeout).killed = true ∧
    (timeoutCheck elapsed timeout).raisedError = some (timeoutMsg timeout) ∧
    mentions (toString timeout) (timeoutMsg timeout) ∧
    (gemini true true authMsg cdPath (.timeoutAfter consumed) return_all timeout).success
      = false ∧
    (gemini true true authMsg cdPath (.timeoutAfter consumed) return_all timeout).error
      = some (timeoutMsg timeout) ∧
    (gemini true true authMsg cdPath (.timeoutAfter consumed) return_all timeout).all_messages
      = some (if return_all then some (consume initState consumed).all_messages else none) := by
  refine ⟨?_, ?_, ?_, rfl, rfl, rfl⟩
  · simp [timeoutCheck, h]
  · simp [timeoutCheck, h]
  · exact ⟨("Gemini CLI execution timed out after " : String).data,
      (" seconds. This may indicate the CLI is waiting for authentication or is stuck."
          : String).data,
      by simp [timeoutMsg, String.data_append, List.append_assoc]⟩

/-- Witness for C3 at `elapsed = 301`, `timeout = 300`, empty stream. -/
theorem c3_timeout_failure_witness :
    (timeoutCheck 301 300).killed = true ∧
    (timeoutCheck 301 300).raisedError = some (timeoutMsg 300) ∧
    mentions (toString 300) (timeoutMsg 300) ∧
    (gemini true true "" "" (.timeoutAfter []) false 300).success = false ∧
    (gemini true true "" "" (.timeoutAfter []) false 300).error = some (timeoutMsg 300) ∧
    (gemini true true "" "" (.timeoutAfter []) false 300).all_messages = some none := by
  have h := c3_timeout_failure 301 300 [] false "" "" (by norm_num)
  simpa using h

/-!  Claim C4. -/

/-- Claim C4, as stated, is false: server.py line 266 tests the deprecation
notice with Python `in` (substring containment), not equality, so an
assistant message whose content merely *contains* the notice is also
skipped. -/
theorem c4_counterexample :
    (consume initState [depSupersetLine]).agent_messages = "" ∧
    assistantContent depSupersetLine = none ∧
    "Note: The --prompt (-p) flag has been deprecated and will be removed."
      ≠ DEPRECATION_NOTICE ∧
    "Note: The --prompt (-p) flag has been deprecated and will be removed." ≠ "" := by
  decide

/-- Claim C4 (amended): over a stream free of lines whose processing raises a
non-decode exception, `agent_messages` is the concatenation, in arrival
order, of the contents of assistant-role message events, skipping a content
exactly when it *contains* the deprecation notice as a substring. -/
theorem c4_agent_text_concat (lines : List Line)
    (h : ∀ l ∈ lines, raisesProc l = false) :
    (consume initState lines).agent_messages =
      concatStrings (lines.filterMap assistantContent) := by
  have hc := consume_agent lines initState rfl h
  simpa [initState] using hc

/-- Witness for C4 (amended) on an interleaved concrete stream. -/
theorem c4_agent_text_concat_witness :
    (consume initState [assistantHello, Line.malformed "noise", sessionLineA]).agent_messages
      = "Hello." := by
  have h := c4_agent_text_concat [assistantHello, Line.malformed "noise", sessionLineA]
    (by decide)
  rw [h]
  decide

/-!  Claim C5. -/

/-- Claim C5, as stated, is false: the `continue` for an assistant
deprecation-notice message (server.py line 267) also skips the session-id
update of lines 270-271, so the last non-null `session_id` of the stream does
not win when it rides on such a message. -/
theorem c5_counterexample :
    eventSessionField depSessionLine = some (JVal.s "s2") ∧
    (consume initState [sessionLineA, depSessionLine]).thread_id = some (JVal.s "s1") ∧
    some (JVal.s "s1") ≠ some (JVal.s "s2") := by
  decide

/-- Claim C5 (amended): over a stream free of raising lines, the final
tracked session identifier is the last non-null `session_id` among lines
whose processing reaches the session update; a null or absent `session_id`
never overwrites, and assistant deprecation-notice messages are skipped
before the update. -/
theorem c5_last_write_wins (lines : List Line)
    (h : ∀ l ∈ lines, raisesProc l = false) :
    (consume initState lines).thread_id =
      lines.foldl
        (fun acc l =>
          match sessionUpdateVal l with
          | some v => some v
          | none => acc)
        none := by
  have hc := consume_thread lines initState rfl h
  simpa [initState] using hc

/-- Witness for C5 (amended): two session-bearing lines, the later wins. -/
theorem c5_last_write_wins_witness :
    (consume initState twoSessionLines).thread_id = some (JVal.s "b") := by
  have h := c5_last_write_wins twoSessionLines (by decide)
  rw [h]
  decide

/-!  Claim C6. -/

/-- Claim C6: the verdict precedence of server.py lines 289-310 — a missing
session id yields failure mentioning the session-id phrase (even with agent
text present); otherwise empty agent text yields failure mentioning a
possible tool action and that the session id remains usable; otherwise
success surfacing `SESSION_ID` and `agent_messages`. -/
theorem c6_verdict_precedence (lines : List Line) (return_all : Bool) (t : Nat)
    (authMsg cdPath : String) :
    ((consume initState lines).thread_id = none →
      (gemini true true authMsg cdPath (.completed lines) return_all t).success = false ∧
      mentions SESSION_FAIL_PHRASE
        ((gemini true true authMsg cdPath (.completed lines) return_all t).error.getD "")) ∧
    (∀ v, (consume initState lines).thread_id = some v →
      (consume initState lines).agent_messages = "" →
      (gemini true true authMsg cdPath (.completed lines) return_all t).success = false ∧
      mentions TOOL_CALL_PHRASE
        ((gemini true true authMsg cdPath (.completed lines) return_all t).error.getD "") ∧
      mentions REUSE_PHRASE
        ((gemini true true authMsg cdPath (.completed lines) return_all t).error.getD "")) ∧
    (∀ v, (consume initState lines).thread_id = some v →
      (consume initState lines).agent_messages ≠ "" →
      (gemini true true authMsg cdPath (.completed lines) return_all t).success = true ∧
      (gemini true true authMsg cdPath (.completed lines) return_all t).SESSION_ID
        = some v ∧
      (gemini true true authMsg cdPath (.completed lines) return_all t).agent_messages
        = some (consume initState lines).agent_messages) := by
  have hg : gemini true true authMsg cdPath (.completed lines) return_all t =
      finalize return_all (consume initState lines) := rfl
  refine ⟨?_, ?_, ?_⟩
  · intro hth
    have hberr : (finalizeBase (consume initState lines)).error =
        some (pyStrip (MISSING_SESSION_MSG ++ (consume initState lines).err_message)) := by
      simp [finalizeBase, hth]
    refine ⟨by rw [hg, finalize_success]; simp [finalizeBase, hth], ?_⟩
    rw [hg, finalize_error, hberr]
    simp only [Option.getD_some]
    apply mentions_pyStrip SESSION_FAIL_PHRASE _ []
      (("\n" : String).data ++ (consume initState lines).err_message.data)
    · calc (MISSING_SESSION_MSG ++ (consume initState lines).err_message).data
          = MISSING_SESSION_MSG.data ++ (consume initState lines).err_message.data :=
            String.data_append _ _
        _ = (([] ++ SESSION_FAIL_PHRASE.data) ++ ("\n" : String).data) ++
              (consume initState lines).err_message.data := by rfl
        _ = ([] ++ SESSION_FAIL_PHRASE.data) ++
              (("\n" : String).data ++ (consume initState lines).err_message.data) :=
            List.append_assoc _ _ _
    · decide
    · decide
    · decide
    · decide
  · intro v hth hag
    have hnn : (consume initState lines).thread_id.isNone = false := by simp [hth]
    have hlen : (consume initState lines).agent_messages.length = 0 := by rw [hag]; rfl
    have hberr : (finalizeBase (consume initState lines)).error =
        some (pyStrip (EMPTY_RESPONSE_MSG ++ (consume initState lines).err_message)) := by
      simp [finalizeBase, hnn, hlen]
    refine ⟨by rw [hg, finalize_success]; simp [finalizeBase, hnn, hlen], ?_, ?_⟩
    · rw [hg, finalize_error, hberr]
      simp only [Option.getD_some]
      apply mentions_pyStrip TOOL_CALL_PHRASE _
        (("Failed to retrieve `agent_messages` from the Gemini session. " : String).data)
        ((" You can continue using the `SESSION_ID` to proceed.\n" : String).data ++
          (consume initState lines).err_message.data)
      · calc (EMPTY_RESPONSE_MSG ++ (consume initState lines).err_message).data
            = EMPTY_RESPONSE_MSG.data ++ (consume initState lines).err_message.data :=
              String.data_append _ _
          _ = ((("Failed to retrieve `agent_messages` from the Gemini session. "
                  : String).data ++ TOOL_CALL_PHRASE.data) ++
                (" You can continue using the `SESSION_ID` to proceed.\n" : String).data) ++
                (consume initState lines).err_message.data := by rfl
          _ = _ := List.append_assoc _ _ _
      · decide
      · decide
      · decide
      · decide
    · rw [hg, finalize_error, hberr]
      simp only [Option.getD_some]
      apply mentions_pyStrip REUSE_PHRASE _
        (("Failed to retrieve `agent_messages` from the Gemini session. This might be due to Gemini performing a tool call. "
            : String).data)
        (("\n" : String).data ++ (consume initState lines).err_message.data)
      · calc (EMPTY_RESPONSE_MSG ++ (consume initState lines).err_message).data
            = EMPTY_RESPONSE_MSG.data ++ (consume initState lines).err_message.data :=
              String.data_append _ _
          _ = ((("Failed to retrieve `agent_messages` from the Gemini session. This might be due to Gemini performing a tool call. "
                  : String).data ++ REUSE_PHRASE.data) ++ ("\n" : String).data) ++
                (consume initState lines).err_message.data := by rfl
          _ = _ := List.append_assoc _ _ _
      · decide
      · decide
      · decide
      · decide
  · intro v hth hag
    have hnn : (consume initState lines).thread_id.isNone = false := by simp [hth]
    have hlen : ¬ (consume initState lines).agent_messages.length = 0 := by
      intro h0
      exact hag (string_length_zero h0)
    refine ⟨?_, ?_, ?_⟩
    · rw [hg, finalize_success]; simp [finalizeBase, hnn, hlen]
    · rw [hg, finalize_sid]; simp [finalizeBase, hnn, hlen, hth]
    · rw [hg, finalize_agent]; simp [finalizeBase, hnn, hlen]

/-- Witness for C6 on the success branch. -/
theorem c6_verdict_precedence_witness :
    (gemini true true "" "" (.completed [assistantHello]) false 300).success = true ∧
    (gemini true true "" "" (.completed [assistantHello]) false 300).SESSION_ID
      = some (JVal.s "abc") ∧
    (gemini true true "" "" (.completed [assistantHello]) false 300).agent_messages
      = some "Hello." := by
  have h := (c6_verdict_precedence [assistantHello] false 300 "" "").2.2 (JVal.s "abc")
    (by decide) (by decide)
  refine ⟨h.1, h.2.1, ?_⟩
  rw [h.2.2]
  decide

/-!  Claim C7. -/

set_option maxRecDepth 100000 in
/-- Claim C7, as stated, is false: the cap test `len(err_message) < 2000`
(server.py line 275) runs *before* appending, so ten 200-character malformed
lines grow the log to 2210 characters (exceeding the claimed 2000-character
cap), and an eleventh malformed line is not recorded at all (so not exactly
one entry per malformed line). -/
theorem c7_counterexample :
    (consume initState elevenBadLines).err_message.length = 2210 ∧
    (consume initState (List.replicate 10 badLine200)).err_message.length = 2210 ∧
    2000 < 2210 := by
  refine ⟨by decide, by decide, by norm_num⟩

/-- Claim C7 (amended): over a stream free of raising lines, `all_messages`
is exactly the successfully decoded events in order; each malformed line
appends one entry with a snippet of at most 200 characters, but only while
the log is under 2000 characters at the time of recording, and the total log
size is bounded by 2220 characters (not 2000). -/
theorem c7_decode_resilience (lines : List Line)
    (h : ∀ l ∈ lines, raisesProc l = false) :
    (consume initState lines).all_messages = lines.filterMap decodedVal ∧
    (consume initState lines).err_message.length ≤ 2220 ∧
    (∀ st raw, (processLine st (Line.malformed raw)).err_message =
      if st.err_message.length < 2000
      then st.err_message ++ "\n[json decode error] " ++ pyTake 200 raw
      else st.err_message) ∧
    (∀ n s, (pyTake n s).length ≤ n) := by
  refine ⟨?_, ?_, processLine_err_malformed, pyTake_length_le⟩
  · simpa [initState] using consume_all lines initState rfl h
  · exact consume_err_le lines initState rfl h (by decide)

/-- Witness for C7 (amended) on a malformed line interleaved with a valid
event. -/
theorem c7_decode_resilience_witness :
    (consume initState [Line.malformed "zz", assistantHello]).all_messages =
      [Line.malformed "zz", assistantHello].filterMap decodedVal ∧
    (consume initState [Line.malformed "zz", assistantHello]).err_message.length ≤ 2220 := by
  have h := c7_decode_resilience [Line.malformed "zz", assistantHello] (by decide)
  exact ⟨h.1, h.2.1⟩

/-!  Claim C9. -/

/-- Claim C9: a consumed line that decodes as JSON but whose processing
raises a non-decode exception appends an `[unexpected error]` entry to the
error text with no 2000-character cap applied, and the loop breaks, so no
later line is processed or recorded (the offending line itself was already
appended to `all_messages` before the exception). -/
theorem c9_unexpected_error_halts (st : AggState) (l : Line) (rest : List Line)
    (hst : st.halted = false) (hl : raisesProc l = true) :
    consume st (l :: rest) = processLine st l ∧
    (processLine st l).halted = true ∧
    (∃ msg, (processLine st l).err_message = st.err_message ++ unexpectedEntry msg) ∧
    (processLine st l).all_messages = st.all_messages ++ (decodedVal l).toList := by
  obtain ⟨msg, hmsgErr, hH⟩ : ∃ msg,
      (processLine st l).err_message = st.err_message ++ unexpectedEntry msg ∧
      (processLine st l).halted = true := by
    cases l with
    | malformed raw => simp [raisesProc] at hl
    | decoded v raw =>
      cases v with
      | nonObj kind => exact ⟨attrErrMsg kind, by simp [processLine], by simp [processLine]⟩
      | obj e =>
        have hA : isAssistantMsg e = true := by
          by_cases hA : isAssistantMsg e = true
          · exact hA
          · simp [raisesProc, hA] at hl
        cases hc : e.content.getD (JVal.s "") with
        | s c => simp [raisesProc, hA, hc] at hl
        | null =>
          exact ⟨iterErrMsg JVal.null, by simp [processLine, hA, hc],
            by simp [processLine, hA, hc]⟩
        | num n =>
          exact ⟨iterErrMsg (JVal.num n), by simp [processLine, hA, hc],
            by simp [processLine, hA, hc]⟩
  refine ⟨?_, hH, ⟨msg, hmsgErr⟩, processLine_all st l⟩
  simp only [consume, hst, if_neg Bool.false_ne_true]
  exact consume_of_halted rest (processLine st l) hH

/-- Witness for C9: a decoded JSON array halts the consumer. -/
theorem c9_unexpected_error_halts_witness :
    consume initState [nonObjLine, assistantHello] = processLine initState nonObjLine ∧
    (processLine initState nonObjLine).halted = true := by
  have h := c9_unexpected_error_halts initState nonObjLine [assistantHello] rfl (by decide)
  exact ⟨h.1, h.2.1⟩

/-!  Claim C10. -/

/-- Claim C10: the timeout result always carries the `all_messages` key
(valued Python `None` when `return_all_messages` is false), while the
completed path carries it exactly when requested and the bad-workspace and
failed-auth early returns never carry it. -/
theorem c10_all_messages_key (consumed lines : List Line) (return_all : Bool) (t : Nat)
    (authMsg cdPath : String) :
    (gemini true true authMsg cdPath (.timeoutAfter consumed) return_all t).all_messages =
      some (if return_all then some (consume initState consumed).all_messages else none) ∧
    (gemini true true authMsg cdPath (.completed lines) return_all t).all_messages =
      (if return_all then some (some (consume initState lines).all_messages) else none) ∧
    (gemini false true authMsg cdPath (.completed lines) return_all t).all_messages = none ∧
    (gemini true false authMsg cdPath (.completed lines) return_all t).all_messages = none := by
  refine ⟨rfl, ?_, rfl, rfl⟩
  exact finalize_all return_all (consume initState lines)

end GeminiMCP
